import Mathlib

/-!
Shallow embedding of the practice-verification pipeline of the Go_Learning
repository: the `Checker.Check` state machine (package `practice`), its output
comparison helpers, and the collaborating submission ledger
(`progress.Repository`, modelled from the spec since its source is not part of
the verified tree).  All string operations mirror the Go `strings` functions
used by the source, specialised to the arguments that appear there.
-/

set_option autoImplicit false

namespace GoLearning

/-! ### Go string primitives -/

/-- Characters accepted by Go `unicode.IsSpace` that can occur in the texts
handled here (mirrors `strings.TrimSpace`). -/
def isGoSpace (c : Char) : Bool :=
  c == ' ' || c == '\t' || c == '\n' || c == '\u000b' || c == '\u000c' || c == '\r'

/-- Go `strings.TrimSpace`. -/
def goTrimSpace (s : String) : String :=
  (((s.toList.dropWhile isGoSpace).reverse.dropWhile isGoSpace).reverse).asString

/-- Go `strings.TrimRight(line, " \t")`. -/
def goTrimRightSpaceTab (s : String) : String :=
  ((s.toList.reverse.dropWhile (fun c => c == ' ' || c == '\t')).reverse).asString

/-- Split a character list at every occurrence of `sep`, keeping empty
pieces (the semantics of Go `strings.Split` for a one-character
separator). -/
def splitChar (sep : Char) : List Char → List (List Char)
  | [] => [[]]
  | c :: cs =>
    if c == sep then [] :: splitChar sep cs
    else
      match splitChar sep cs with
      | [] => [[c]]
      | l :: ls => (c :: l) :: ls

/-- Go `strings.Split` (the source only splits on the one-character
separators `"|"` and `"\n"`). -/
def goSplit (s : String) (sep : Char) : List String :=
  (splitChar sep s.toList).map List.asString

/-- Go `strings.Join`. -/
def goJoin (sep : String) : List String → String
  | [] => ""
  | [x] => x
  | x :: y :: xs => x ++ sep ++ goJoin sep (y :: xs)

/-- Go `strings.ReplaceAll(s, "\r\n", "\n")`, the only replacement the source
performs: non-overlapping left-to-right replacement of CRLF by LF. -/
def replaceCRLFChars : List Char → List Char
  | '\r' :: '\n' :: rest => '\n' :: replaceCRLFChars rest
  | c :: rest => c :: replaceCRLFChars rest
  | [] => []

/-- String-level wrapper for `replaceCRLFChars`. -/
def goReplaceCRLF (s : String) : String :=
  (replaceCRLFChars s.toList).asString

/-- Is `needle` a prefix of `hay`? (helper for Go `strings.Contains`). -/
def charsPrefix : List Char → List Char → Bool
  | [], _ => true
  | _ :: _, [] => false
  | a :: as, b :: bs => a == b && charsPrefix as bs

/-- Does `needle` occur as a contiguous run inside `hay`? -/
def charsContains (needle : List Char) : List Char → Bool
  | [] => charsPrefix needle []
  | c :: cs => charsPrefix needle (c :: cs) || charsContains needle cs

/-- Go `strings.Contains(s, sub)`. -/
def goContains (s sub : String) : Bool :=
  charsContains sub.toList s.toList

/-! ### Output comparison (`checker.go` lines 175-226) -/

/-- `Checker.normalizeOutput`: CRLF to LF, then strip trailing spaces/tabs from
every line. -/
def normalizeOutput (s : String) : String :=
  let s1 := goReplaceCRLF s
  let lines := goSplit s1 '\n'
  goJoin "\n" (lines.map goTrimRightSpaceTab)

/-- `Checker.nonEmptyLines`: the lines whose trimmed form is non-empty. -/
def nonEmptyLines (s : String) : List String :=
  (goSplit s '\n').filter (fun line => goTrimSpace line != "")

/-- `Checker.compareOutput`: exact equality after normalization, else
blank-line-discarding line-by-line comparison of trimmed lines. -/
def compareOutput (actual expected : String) : Bool :=
  let a := normalizeOutput actual
  let e := normalizeOutput expected
  if a == e then true
  else
    let actualLines := nonEmptyLines a
    let expectedLines := nonEmptyLines e
    if actualLines.length != expectedLines.length then false
    else (actualLines.zip expectedLines).all
      (fun p => goTrimSpace p.1 == goTrimSpace p.2)

/-! ### Data model -/

/-- `content.Task` (the fields `Checker.Check` reads). -/
structure Task where
  ID : Int
  LessonID : Int
  Mode : String
  RequiredPatterns : String
  ExpectedOutput : String
  TestsGo : String
  Points : Int
deriving Repr, DecidableEq

/-- `progress.Submission` (the fields `Checker.Check` writes). -/
structure Submission where
  TaskID : Int
  Code : String
  Status : String
  Stdout : String
  Stderr : String
deriving Repr, DecidableEq

/-- `practice.RunResult`. -/
structure RunResult where
  Success : Bool
  Stdout : String
  Stderr : String
  Error : String
deriving Repr, DecidableEq

/-- `practice.CheckResult`. -/
structure CheckResult where
  Success : Bool
  Output : String
  Expected : String
  Error : String
  Hints : List String
  PointsAwarded : Int
deriving Repr, DecidableEq

/-! ### Submission ledger, modelled from the spec

The `progress.Repository` source is not part of the verified tree (only its
callers are), so its durable state and operations are modelled from the
spec's Ledger contract (spec sections 4.3 and 6). -/

/-- Modelled from the spec: the durable Ledger state — the append/update log
of submissions and the record of point credits per lesson. -/
structure LedgerState where
  submissions : List Submission
  practiceDone : List (Int × Int)
deriving Repr, DecidableEq

/-- Modelled from the spec: `CreateSubmission` inserts a pending submission
row and returns its identifier. -/
def createSubmission (st : LedgerState) (sub : Submission) : Nat × LedgerState :=
  (st.submissions.length, { st with submissions := st.submissions ++ [sub] })

/-- Modelled from the spec: `UpdateSubmission` updates the row identified by
`sid` to the given terminal state. -/
def updateSubmission (st : LedgerState) (sid : Nat) (sub : Submission) : LedgerState :=
  { st with submissions := st.submissions.set sid sub }

/-- Modelled from the spec: `IsTaskSolvedSuccessfully` queries whether any
submission recorded for the given task has ever reached the status
`success`. -/
def isTaskSolvedSuccessfully (st : LedgerState) (taskID : Int) : Bool :=
  st.submissions.any (fun s => s.TaskID == taskID && s.Status == "success")

/-- Modelled from the spec: `SetPracticeDone` credits the point value to the
task's owning lesson. -/
def setPracticeDone (st : LedgerState) (lessonID points : Int) : LedgerState :=
  { st with practiceDone := st.practiceDone ++ [(lessonID, points)] }

/-- The sandboxed execution collaborator: `Run` and `Check`, each returning a
Go error (`Except.error`) on infra failure or a `RunResult` otherwise. -/
structure Runner where
  run : String → Except String RunResult
  check : String → String → Except String RunResult

/-- The environment a `Checker.Check` call runs against: the task provider,
the runner, and error injection for the ledger calls whose results the Go
code inspects or discards. -/
structure Env where
  getTask : Int → Except String (Option Task)
  runner : Runner
  createSubmissionErr : Option String
  isSolvedErr : Bool
  setPracticeDoneErr : Bool

instance {ε α : Type} [DecidableEq ε] [DecidableEq α] : DecidableEq (Except ε α) := fun
  | .error a, .error b =>
    if h : a = b then .isTrue (h ▸ rfl) else .isFalse (fun hc => h (Except.error.inj hc))
  | .error _, .ok _ => .isFalse (fun hc => Except.noConfusion hc)
  | .ok _, .error _ => .isFalse (fun hc => Except.noConfusion hc)
  | .ok a, .ok b =>
    if h : a = b then .isTrue (h ▸ rfl) else .isFalse (fun hc => h (Except.ok.inj hc))

/-- Everything observable about one `Checker.Check` call: the returned value
(`Except.error` models a non-nil Go error), the final ledger state, the
number of `Runner.Run` and `Runner.Check` invocations, and the submissions
passed to `UpdateSubmission`, in order. -/
structure CheckOutcome where
  result : Except String CheckResult
  ledger : LedgerState
  runnerRunCalls : Nat
  runnerCheckCalls : Nat
  updateCalls : List Submission
deriving Repr, DecidableEq

/-! ### The Checker state machine (`checker.go` lines 39-173) -/

/-- The patterns of `Task.RequiredPatterns` that are non-empty after trimming
and do not occur in the submitted code (the loop at lines 76-83). -/
def missingPatterns (task : Task) (code : String) : List String :=
  ((goSplit task.RequiredPatterns '|').map goTrimSpace).filter
    (fun p => p != "" && !(goContains code p))

/-- Fixed message returned when the task identifier matches no task
(line 48). -/
def taskNotFoundMsg : String := "Задание не найдено"

/-- Fixed message returned for manual-mode tasks (line 56). -/
def manualTaskMsg : String :=
  "Это ручное задание. Выполните его в IDE и нажмите «Отметить выполненным»."

/-- The scoring tail of `Check` (lines 156-172): mark success, query the
ledger for a prior success (error discarded, line 161), award `Task.Points`
only when none existed, attempt the point credit (error discarded,
lines 166-168), and persist the terminal submission. -/
def scoringStage (env : Env) (st : LedgerState) (sid : Nat) (taskID : Int)
    (code : String) (task : Task) (stdoutStr expectedField : String)
    (checkCalls : Nat) : CheckOutcome :=
  let sub : Submission :=
    { TaskID := taskID, Code := code, Status := "success",
      Stdout := stdoutStr, Stderr := "" }
  let alreadySolved := if env.isSolvedErr then false else isTaskSolvedSuccessfully st taskID
  let award : Int := if alreadySolved then 0 else task.Points
  let st1 :=
    if alreadySolved then st
    else if env.setPracticeDoneErr then st
    else setPracticeDone st task.LessonID task.Points
  { result := .ok { Success := true, Output := stdoutStr, Expected := expectedField,
                    Error := "", Hints := [], PointsAwarded := award },
    ledger := updateSubmission st1 sid sub,
    runnerRunCalls := 1, runnerCheckCalls := checkCalls,
    updateCalls := [sub] }

/-- `Checker.Check` (lines 39-173), as a pure function of the environment and
the ledger state. -/
def Check (env : Env) (st : LedgerState) (taskID : Int) (code : String) : CheckOutcome :=
  match env.getTask taskID with
  | .error e =>
    { result := .error ("get task: " ++ e), ledger := st,
      runnerRunCalls := 0, runnerCheckCalls := 0, updateCalls := [] }
  | .ok none =>
    { result := .ok { Success := false, Output := "", Expected := "",
                      Error := taskNotFoundMsg, Hints := [], PointsAwarded := 0 },
      ledger := st, runnerRunCalls := 0, runnerCheckCalls := 0, updateCalls := [] }
  | .ok (some task) =>
    if goTrimSpace task.Mode == "manual" then
      { result := .ok { Success := false, Output := "", Expected := "",
                        Error := manualTaskMsg, Hints := [], PointsAwarded := 0 },
        ledger := st, runnerRunCalls := 0, runnerCheckCalls := 0, updateCalls := [] }
    else
      match env.createSubmissionErr with
      | some e =>
        { result := .error ("create submission: " ++ e), ledger := st,
          runnerRunCalls := 0, runnerCheckCalls := 0, updateCalls := [] }
      | none =>
        let sub0 : Submission :=
          { TaskID := taskID, Code := code, Status := "pending", Stdout := "", Stderr := "" }
        let created := createSubmission st sub0
        let sid := created.1
        let st1 := created.2
        let missing := missingPatterns task code
        if task.RequiredPatterns != "" && missing != [] then
          let sub1 := { sub0 with Status := "error" }
          { result := .ok { Success := false, Output := "", Expected := "",
                            Error := "В коде отсутствуют необходимые конструкции",
                            Hints := ["Используйте: " ++ goJoin ", " missing],
                            PointsAwarded := 0 },
            ledger := updateSubmission st1 sid sub1,
            runnerRunCalls := 0, runnerCheckCalls := 0, updateCalls := [sub1] }
        else
          match env.runner.run code with
          | .error e =>
            let sub1 := { sub0 with Status := "error", Stderr := e }
            { result := .error ("run code: " ++ e),
              ledger := updateSubmission st1 sid sub1,
              runnerRunCalls := 1, runnerCheckCalls := 0, updateCalls := [sub1] }
          | .ok runResult =>
            if !runResult.Success then
              let sub1 := { sub0 with Status := "error", Stderr := runResult.Error }
              { result := .ok { Success := false, Output := runResult.Stdout, Expected := "",
                                Error := runResult.Error, Hints := [], PointsAwarded := 0 },
                ledger := updateSubmission st1 sid sub1,
                runnerRunCalls := 1, runnerCheckCalls := 0, updateCalls := [sub1] }
            else
              let sub1 := { sub0 with Stdout := runResult.Stdout }
              let expectedField :=
                if task.ExpectedOutput != "" then goTrimSpace task.ExpectedOutput else ""
              if task.ExpectedOutput != "" &&
                 !(compareOutput (goTrimSpace runResult.Stdout) (goTrimSpace task.ExpectedOutput)) then
                let sub2 := { sub1 with Status := "error" }
                { result := .ok { Success := false, Output := runResult.Stdout,
                                  Expected := expectedField,
                                  Error := "Вывод программы не соответствует ожидаемому",
                                  Hints := ["Ожидалось:\n" ++ goTrimSpace task.ExpectedOutput],
                                  PointsAwarded := 0 },
                  ledger := updateSubmission st1 sid sub2,
                  runnerRunCalls := 1, runnerCheckCalls := 0, updateCalls := [sub2] }
              else
                if task.TestsGo != "" then
                  match env.runner.check code task.TestsGo with
                  | .error e =>
                    let sub2 := { sub1 with Status := "error", Stderr := e }
                    { result := .error ("run tests: " ++ e),
                      ledger := updateSubmission st1 sid sub2,
                      runnerRunCalls := 1, runnerCheckCalls := 1, updateCalls := [sub2] }
                  | .ok testResult =>
                    if !testResult.Success then
                      let sub2 := { sub1 with Status := "error", Stderr := testResult.Error }
                      { result := .ok { Success := false, Output := runResult.Stdout,
                                        Expected := expectedField,
                                        Error := "Тесты не пройдены",
                                        Hints := if testResult.Error != "" then [testResult.Error] else [],
                                        PointsAwarded := 0 },
                        ledger := updateSubmission st1 sid sub2,
                        runnerRunCalls := 1, runnerCheckCalls := 1, updateCalls := [sub2] }
                    else
                      scoringStage env st1 sid taskID code task runResult.Stdout expectedField 1
                else
                  scoringStage env st1 sid taskID code task runResult.Stdout expectedField 0

/-! ### Spec-side output comparison (for the refinement claim about
`compareOutput`), written from the spec's words -/

/-- Normalization as the spec words it: every CRLF converted to LF, trailing
spaces and tabs stripped from each line. -/
def specNormalize (s : String) : String :=
  goJoin "\n" ((goSplit (goReplaceCRLF s) '\n').map goTrimRightSpaceTab)

/-- The trimmed non-blank lines of a normalized text, as the spec words the
forgiving comparison: discard blank lines, then compare trimmed lines. -/
def specNonblankTrimmed (s : String) : List String :=
  (((goSplit (specNormalize s) '\n').filter (fun l => goTrimSpace l != "")).map goTrimSpace)

/-- The spec's two-tier matching condition: exact equality after
normalization, or else equally many non-blank lines whose corresponding
pairs are equal after trimming. -/
def SpecOutputsMatch (actual expected : String) : Prop :=
  specNormalize actual = specNormalize expected ∨
    specNonblankTrimmed actual = specNonblankTrimmed expected

/-- The pending-submission row the Checker creates (lines 61-65). -/
def pendingSub (taskID : Int) (code : String) : Submission :=
  { TaskID := taskID, Code := code, Status := "pending", Stdout := "", Stderr := "" }

/-! ### Interleaved execution of the ledger-visible steps of two racing
`Check` calls (for the race-safety claim)

A passing `Check` call touches the shared ledger in four atomic operations,
in this order: create the pending row (lines 60-68), the already-solved
query (line 161), the conditional point credit (lines 163-168, with the
award decision fixed thread-locally by the query's reply), and the final
success update (line 171).  Between those operations nothing serializes two
concurrent calls, so an interleaving is any schedule of the two threads'
next operations. -/

/-- Thread-local control state of one passing `Check` call, positioned
before its next ledger operation. -/
inductive ScorePhase where
  | pCreate
  | pQuery (sid : Nat)
  | pCredit (sid : Nat)
  | pUpdate (sid : Nat) (award : Int)
  | pDone (sid : Nat) (award : Int)
deriving Repr, DecidableEq

/-- One atomic ledger operation of a passing `Check` call for `task` whose
runner stub reports success with stdout `out`. -/
def threadStep (taskID : Int) (code : String) (task : Task) (out : String) :
    ScorePhase → LedgerState → ScorePhase × LedgerState
  | .pCreate, st =>
    let c := createSubmission st (pendingSub taskID code)
    (.pQuery c.1, c.2)
  | .pQuery sid, st =>
    if isTaskSolvedSuccessfully st taskID then (.pUpdate sid 0, st)
    else (.pCredit sid, st)
  | .pCredit sid, st =>
    (.pUpdate sid task.Points, setPracticeDone st task.LessonID task.Points)
  | .pUpdate sid award, st =>
    (.pDone sid award, updateSubmission st sid
      { TaskID := taskID, Code := code, Status := "success", Stdout := out, Stderr := "" })
  | .pDone sid award, st => (.pDone sid award, st)

/-- One scheduling step of the pair of racing calls: `true` advances the
first call, `false` the second. -/
def twoStep (taskID : Int) (code₁ code₂ : String) (task : Task)
    (s : ScorePhase × ScorePhase × LedgerState) (choice : Bool) :
    ScorePhase × ScorePhase × LedgerState :=
  if choice then
    let r := threadStep taskID code₁ task "" s.1 s.2.2
    (r.1, s.2.1, r.2)
  else
    let r := threadStep taskID code₂ task "" s.2.1 s.2.2
    (s.1, r.1, r.2)

/-- Run a schedule of the two racing calls. -/
def runSched (taskID : Int) (code₁ code₂ : String) (task : Task) :
    List Bool → ScorePhase × ScorePhase × LedgerState → ScorePhase × ScorePhase × LedgerState
  | [], s => s
  | c :: cs, s => runSched taskID code₁ code₂ task cs (twoStep taskID code₁ code₂ task s c)

/-- The points a finished call reported (`CheckResult.PointsAwarded`). -/
def phaseAward : ScorePhase → Int
  | .pDone _ a => a
  | _ => 0

/-! ### Concrete fixtures for closed witnesses -/

/-- A runner stub that deterministically succeeds (empty stdout). -/
def wRunnerOk : Runner :=
  { run := fun _ => .ok { Success := true, Stdout := "", Stderr := "", Error := "" },
    check := fun _ _ => .ok { Success := true, Stdout := "", Stderr := "", Error := "" } }

/-- An auto-mode task with no verification criteria, worth 10 points. -/
def wTaskAuto : Task :=
  { ID := 1, LessonID := 2, Mode := "auto", RequiredPatterns := "", ExpectedOutput := "",
    TestsGo := "", Points := 10 }

/-- The same task with a zero point value. -/
def wTaskZero : Task := { wTaskAuto with Points := 0 }

/-- A manual-mode task. -/
def wTaskManual : Task := { wTaskAuto with Mode := "manual", Points := 5 }

/-- An auto task requiring the literal patterns `for` and `fmt.Println`. -/
def wTaskPat : Task := { wTaskAuto with RequiredPatterns := "for | fmt.Println" }

/-- An environment serving the given task under id 1, with the succeeding
runner and no injected ledger errors. -/
def wEnvOf (t : Task) : Env :=
  { getTask := fun i => if i == 1 then .ok (some t) else .ok none,
    runner := wRunnerOk, createSubmissionErr := none,
    isSolvedErr := false, setPracticeDoneErr := false }

/-- An environment with no tasks at all. -/
def wEnvNoTask : Env :=
  { getTask := fun _ => .ok none, runner := wRunnerOk, createSubmissionErr := none,
    isSolvedErr := false, setPracticeDoneErr := false }

/-- An environment whose runner fails with an infra error. -/
def wEnvInfra : Env :=
  { wEnvOf wTaskAuto with
    runner := { run := fun _ => .error "sandbox unavailable",
                check := fun _ _ => .error "sandbox unavailable" } }

/-- An environment whose runner reports a program failure. -/
def wEnvProgFail : Env :=
  { wEnvOf wTaskAuto with
    runner := { run := fun _ => .ok { Success := false, Stdout := "partial",
                                      Stderr := "", Error := "compile error" },
                check := fun _ _ => .ok { Success := true, Stdout := "", Stderr := "",
                                          Error := "" } } }

/-- The empty initial ledger. -/
def wSt : LedgerState := { submissions := [], practiceDone := [] }

/-- An environment whose already-solved ledger query fails. -/
def wEnvIsErr : Env := { wEnvOf wTaskAuto with isSolvedErr := true }

/-- An environment whose point-credit ledger call fails. -/
def wEnvSetErr : Env := { wEnvOf wTaskAuto with setPracticeDoneErr := true }

/-- Classifies a `Check` return value as a generic verification-failure
response: a structured `CheckResult` with `Success = false` delivered with a
nil Go error. -/
def isGenericFailureResult (o : Except String CheckResult) : Bool :=
  match o with
  | .ok cr => !cr.Success
  | .error _ => false

/-- The points a `Check` call reported (zero when it returned an error). -/
def resultPoints (o : CheckOutcome) : Int :=
  match o.result with
  | .ok cr => cr.PointsAwarded
  | .error _ => 0

/-! ### Helper lemmas -/

theorem specNormalize_eq_normalizeOutput (s : String) :
    specNormalize s = normalizeOutput s := rfl

theorem map_eq_map_iff_zip {α β : Type} (f : α → β) (xs ys : List α) :
    xs.map f = ys.map f ↔
      xs.length = ys.length ∧ ∀ p ∈ xs.zip ys, f p.1 = f p.2 := by
  induction xs generalizing ys with
  | nil => cases ys <;> simp
  | cons x xs ih =>
    cases ys with
    | nil => simp
    | cons y ys =>
      simp only [List.map_cons, List.cons.injEq, List.length_cons, List.zip_cons_cons,
        List.mem_cons, Nat.succ.injEq, ih ys]
      constructor
      · rintro ⟨h1, h2, h3⟩
        exact ⟨h2, fun p hp => by rcases hp with rfl | hp; exact h1; exact h3 p hp⟩
      · rintro ⟨h1, h2⟩
        exact ⟨h2 (x, y) (Or.inl rfl), h1, fun p hp => h2 p (Or.inr hp)⟩

theorem charsPrefix_append (b c : List Char) : charsPrefix b (b ++ c) = true := by
  induction b with
  | nil => rfl
  | cons x xs ih => simp [charsPrefix, ih]

theorem charsContains_of_front {n h : List Char} (hp : charsPrefix n h = true) :
    charsContains n h = true := by
  cases h with
  | nil => exact hp
  | cons c cs => simp [charsContains, hp]

theorem charsContains_append_left (a : List Char) {n h : List Char}
    (hc : charsContains n h = true) : charsContains n (a ++ h) = true := by
  induction a with
  | nil => exact hc
  | cons x xs ih =>
    simp only [List.cons_append, charsContains, Bool.or_eq_true]
    exact Or.inr ih

theorem string_toList_append (s t : String) : (s ++ t).toList = s.toList ++ t.toList := by
  simp [String.toList, String.data_append]

theorem goContains_append (s p t : String) : goContains ((s ++ p) ++ t) p = true := by
  unfold goContains
  rw [string_toList_append, string_toList_append, List.append_assoc]
  exact charsContains_append_left s.toList
    (charsContains_of_front (charsPrefix_append p.toList t.toList))

theorem mem_goJoin_split {sep p : String} {l : List String} (hp : p ∈ l) :
    ∃ s t, goJoin sep l = (s ++ p) ++ t := by
  induction l with
  | nil => cases hp
  | cons x xs ih =>
    rcases List.mem_cons.mp hp with rfl | hmem
    · cases xs with
      | nil =>
        exact ⟨"", "", by simp [goJoin, String.empty_append, String.append_empty]⟩
      | cons y ys =>
        refine ⟨"", sep ++ goJoin sep (y :: ys), ?_⟩
        simp [goJoin, String.empty_append, String.append_assoc]
    · rcases ih hmem with ⟨s, t, hst⟩
      cases xs with
      | nil => cases hmem
      | cons y ys =>
        refine ⟨x ++ sep ++ s, t, ?_⟩
        simp [goJoin, hst, String.append_assoc]

theorem goContains_goJoin {p : String} {l : List String} (pre sep : String) (hp : p ∈ l) :
    goContains (pre ++ goJoin sep l) p = true := by
  rcases @mem_goJoin_split sep p l hp with ⟨s, t, hst⟩
  rw [hst]
  have : pre ++ ((s ++ p) ++ t) = ((pre ++ s) ++ p) ++ t := by
    simp [String.append_assoc]
  rw [this]
  exact goContains_append (pre ++ s) p t

theorem set_append_length {α : Type} (xs : List α) (a b : α) :
    (xs ++ [a]).set xs.length b = xs ++ [b] := by
  induction xs with
  | nil => rfl
  | cons x xs ih => simp [List.set, ih]

theorem isSolved_append_pending (st : LedgerState) (taskID : Int) (sub : Submission)
    (h : (sub.Status == "success") = false) :
    isTaskSolvedSuccessfully { st with submissions := st.submissions ++ [sub] } taskID =
      isTaskSolvedSuccessfully st taskID := by
  simp [isTaskSolvedSuccessfully, List.any_append, h]

/-- Characterization of `Check` on the all-stages-pass path: it reduces to
the scoring tail applied to the ledger holding the freshly created pending
row. -/
theorem check_pass
    (env : Env) (st : LedgerState) (taskID : Int) (code : String) (task : Task) (rr : RunResult)
    (hTask : env.getTask taskID = .ok (some task))
    (hMode : (goTrimSpace task.Mode == "manual") = false)
    (hCreate : env.createSubmissionErr = none)
    (hPat : missingPatterns task code = [])
    (hRun : env.runner.run code = .ok rr)
    (hRS : rr.Success = true)
    (hOut : task.ExpectedOutput = "" ∨
      compareOutput (goTrimSpace rr.Stdout) (goTrimSpace task.ExpectedOutput) = true)
    (hTests : task.TestsGo = "" ∨
      ∃ tr, env.runner.check code task.TestsGo = .ok tr ∧ tr.Success = true) :
    Check env st taskID code =
      scoringStage env
        { st with submissions := st.submissions ++ [pendingSub taskID code] }
        st.submissions.length taskID code task rr.Stdout
        (if task.ExpectedOutput != "" then goTrimSpace task.ExpectedOutput else "")
        (if task.TestsGo != "" then 1 else 0) := by
  have hOutB : (task.ExpectedOutput != "" &&
      !(compareOutput (goTrimSpace rr.Stdout) (goTrimSpace task.ExpectedOutput))) = false := by
    rcases hOut with hE | hC
    · simp [hE]
    · simp [hC]
  by_cases hT : task.TestsGo = ""
  · simp [Check, hTask, hMode, hCreate, hPat, hRun, hRS, hOutB, hT, createSubmission, pendingSub]
  · rcases hTests with hT2 | ⟨tr, hTr, hTrS⟩
    · exact absurd hT2 hT
    · simp [Check, hTask, hMode, hCreate, hPat, hRun, hRS, hOutB, hT, hTr, hTrS,
        createSubmission, pendingSub]

theorem scoringStage_result (env : Env) (st : LedgerState) (sid : Nat) (taskID : Int)
    (code : String) (task : Task) (out exp : String) (cc : Nat) :
    (scoringStage env st sid taskID code task out exp cc).result =
      .ok { Success := true, Output := out, Expected := exp, Error := "", Hints := [],
            PointsAwarded :=
              if (if env.isSolvedErr then false else isTaskSolvedSuccessfully st taskID)
              then 0 else task.Points } := rfl

theorem scoringStage_submissions (env : Env) (st : LedgerState) (sid : Nat) (taskID : Int)
    (code : String) (task : Task) (out exp : String) (cc : Nat) :
    (scoringStage env st sid taskID code task out exp cc).ledger.submissions =
      st.submissions.set sid
        { TaskID := taskID, Code := code, Status := "success", Stdout := out, Stderr := "" } := by
  simp only [scoringStage, updateSubmission, setPracticeDone]
  split_ifs <;> rfl

theorem scoringStage_practiceDone (env : Env) (st : LedgerState) (sid : Nat) (taskID : Int)
    (code : String) (task : Task) (out exp : String) (cc : Nat) :
    (scoringStage env st sid taskID code task out exp cc).ledger.practiceDone =
      if (if env.isSolvedErr then false else isTaskSolvedSuccessfully st taskID)
      then st.practiceDone
      else if env.setPracticeDoneErr then st.practiceDone
      else st.practiceDone ++ [(task.LessonID, task.Points)] := by
  simp only [scoringStage, updateSubmission, setPracticeDone]
  split_ifs <;> rfl

theorem scoringStage_updateCalls (env : Env) (st : LedgerState) (sid : Nat) (taskID : Int)
    (code : String) (task : Task) (out exp : String) (cc : Nat) :
    (scoringStage env st sid taskID code task out exp cc).updateCalls =
      [{ TaskID := taskID, Code := code, Status := "success", Stdout := out, Stderr := "" }] := rfl

theorem check_pass_result
    (env : Env) (st : LedgerState) (taskID : Int) (code : String) (task : Task) (rr : RunResult)
    (hTask : env.getTask taskID = .ok (some task))
    (hMode : (goTrimSpace task.Mode == "manual") = false)
    (hCreate : env.createSubmissionErr = none)
    (hPat : missingPatterns task code = [])
    (hRun : env.runner.run code = .ok rr)
    (hRS : rr.Success = true)
    (hOut : task.ExpectedOutput = "" ∨
      compareOutput (goTrimSpace rr.Stdout) (goTrimSpace task.ExpectedOutput) = true)
    (hTests : task.TestsGo = "" ∨
      ∃ tr, env.runner.check code task.TestsGo = .ok tr ∧ tr.Success = true) :
    (Check env st taskID code).result =
      .ok { Success := true, Output := rr.Stdout,
            Expected := (if task.ExpectedOutput != "" then goTrimSpace task.ExpectedOutput else ""),
            Error := "", Hints := [],
            PointsAwarded :=
              if (if env.isSolvedErr then false else isTaskSolvedSuccessfully st taskID)
              then 0 else task.Points } := by
  rw [check_pass env st taskID code task rr hTask hMode hCreate hPat hRun hRS hOut hTests,
    scoringStage_result,
    isSolved_append_pending st taskID (pendingSub taskID code) rfl]

theorem check_pass_submissions
    (env : Env) (st : LedgerState) (taskID : Int) (code : String) (task : Task) (rr : RunResult)
    (hTask : env.getTask taskID = .ok (some task))
    (hMode : (goTrimSpace task.Mode == "manual") = false)
    (hCreate : env.createSubmissionErr = none)
    (hPat : missingPatterns task code = [])
    (hRun : env.runner.run code = .ok rr)
    (hRS : rr.Success = true)
    (hOut : task.ExpectedOutput = "" ∨
      compareOutput (goTrimSpace rr.Stdout) (goTrimSpace task.ExpectedOutput) = true)
    (hTests : task.TestsGo = "" ∨
      ∃ tr, env.runner.check code task.TestsGo = .ok tr ∧ tr.Success = true) :
    (Check env st taskID code).ledger.submissions =
      st.submissions ++ [{ TaskID := taskID, Code := code, Status := "success",
                           Stdout := rr.Stdout, Stderr := "" }] := by
  rw [check_pass env st taskID code task rr hTask hMode hCreate hPat hRun hRS hOut hTests,
    scoringStage_submissions]
  exact set_append_length st.submissions (pendingSub taskID code) _

theorem check_pass_practiceDone
    (env : Env) (st : LedgerState) (taskID : Int) (code : String) (task : Task) (rr : RunResult)
    (hTask : env.getTask taskID = .ok (some task))
    (hMode : (goTrimSpace task.Mode == "manual") = false)
    (hCreate : env.createSubmissionErr = none)
    (hPat : missingPatterns task code = [])
    (hRun : env.runner.run code = .ok rr)
    (hRS : rr.Success = true)
    (hOut : task.ExpectedOutput = "" ∨
      compareOutput (goTrimSpace rr.Stdout) (goTrimSpace task.ExpectedOutput) = true)
    (hTests : task.TestsGo = "" ∨
      ∃ tr, env.runner.check code task.TestsGo = .ok tr ∧ tr.Success = true) :
    (Check env st taskID code).ledger.practiceDone =
      if (if env.isSolvedErr then false else isTaskSolvedSuccessfully st taskID)
      then st.practiceDone
      else if env.setPracticeDoneErr then st.practiceDone
      else st.practiceDone ++ [(task.LessonID, task.Points)] := by
  rw [check_pass env st taskID code task rr hTask hMode hCreate hPat hRun hRS hOut hTests,
    scoringStage_practiceDone,
    isSolved_append_pending st taskID (pendingSub taskID code) rfl]

/-- Grounding of the interleaving model against the monolithic function: a
solo run of one call's four ledger operations reaches the same final ledger
and the same award as `Check` itself on the same inputs. -/
theorem thread_model_agrees_with_Check :
    (runSched 1 "c" "c" wTaskAuto [true, true, true, true]
      (ScorePhase.pCreate, ScorePhase.pCreate, wSt)).2.2 =
      (Check (wEnvOf wTaskAuto) wSt 1 "c").ledger ∧
    phaseAward (runSched 1 "c" "c" wTaskAuto [true, true, true, true]
      (ScorePhase.pCreate, ScorePhase.pCreate, wSt)).1 =
      resultPoints (Check (wEnvOf wTaskAuto) wSt 1 "c") := by
  decide

/-- Under the fully sequential schedule the model awards points on exactly
the first of the two calls, matching the sequential idempotent-scoring
behaviour. -/
theorem thread_model_sequential_awards_once :
    phaseAward (runSched 1 "codeA" "codeB" wTaskAuto
      [true, true, true, true, false, false, false, false]
      (ScorePhase.pCreate, ScorePhase.pCreate, wSt)).1 = 10 ∧
    phaseAward (runSched 1 "codeA" "codeB" wTaskAuto
      [true, true, true, true, false, false, false, false]
      (ScorePhase.pCreate, ScorePhase.pCreate, wSt)).2.1 = 0 := by
  decide

/-! ### Claims -/

/-- C8: for every task whose mode is manual and every submitted code, `Check`
returns immediately with `Success = false` and the same fixed explanatory
message, independent of the submitted code; no later stage runs (no
submission is created, the runner is never invoked, the ledger is
unchanged). -/
theorem c8_manual_mode_gate
    (env : Env) (st : LedgerState) (taskID : Int) (task : Task)
    (hTask : env.getTask taskID = .ok (some task))
    (hMode : goTrimSpace task.Mode = "manual") :
    ∀ code : String,
      Check env st taskID code =
        { result := .ok { Success := false, Output := "", Expected := "",
                          Error := manualTaskMsg, Hints := [], PointsAwarded := 0 },
          ledger := st, runnerRunCalls := 0, runnerCheckCalls := 0, updateCalls := [] } := by
  intro code
  simp [Check, hTask, hMode]

/-- Witness for C8 at a concrete manual task and two different codes. -/
theorem c8_manual_mode_gate_witness :
    Check (wEnvOf wTaskManual) wSt 1 "package main" =
      { result := .ok { Success := false, Output := "", Expected := "",
                        Error := manualTaskMsg, Hints := [], PointsAwarded := 0 },
        ledger := wSt, runnerRunCalls := 0, runnerCheckCalls := 0, updateCalls := [] } ∧
    Check (wEnvOf wTaskManual) wSt 1 "other code" =
      { result := .ok { Success := false, Output := "", Expected := "",
                        Error := manualTaskMsg, Hints := [], PointsAwarded := 0 },
        ledger := wSt, runnerRunCalls := 0, runnerCheckCalls := 0, updateCalls := [] } :=
  ⟨c8_manual_mode_gate (wEnvOf wTaskManual) wSt 1 wTaskManual (by decide) (by decide)
      "package main",
   c8_manual_mode_gate (wEnvOf wTaskManual) wSt 1 wTaskManual (by decide) (by decide)
      "other code"⟩

/-- C7 counterexample: for an unknown task identifier, `Check` does NOT
produce an outcome distinct from an ordinary verification failure — it
returns exactly a generic `Success = false` `CheckResult` (with a nil Go
error), classified identically to a genuine verification failure such as a
missing-pattern response, and distinguishable from it only by the message
text. -/
theorem c7_not_found_counterexample :
    (Check wEnvNoTask wSt 1 "package main").result =
      .ok { Success := false, Output := "", Expected := "", Error := taskNotFoundMsg,
            Hints := [], PointsAwarded := 0 } ∧
    isGenericFailureResult (Check wEnvNoTask wSt 1 "package main").result = true ∧
    isGenericFailureResult (Check (wEnvOf wTaskPat) wSt 1 "x").result = true := by
  decide

/-- C7 (amended): a `Check` call whose task identifier matches no task
returns, with a nil Go error, the fixed `CheckResult` with `Success = false`
and the message `Задание не найдено`; it is thereby distinct from a
propagated system error, but it is delivered as a generic
`Success = false` `CheckResult`, distinguishable from verification failures
only by the message text. -/
theorem c7_not_found_amended
    (env : Env) (st : LedgerState) (taskID : Int) (code : String)
    (hTask : env.getTask taskID = .ok none) :
    (Check env st taskID code).result =
      .ok { Success := false, Output := "", Expected := "", Error := taskNotFoundMsg,
            Hints := [], PointsAwarded := 0 } ∧
    isGenericFailureResult (Check env st taskID code).result = true := by
  constructor
  · simp [Check, hTask]
  · simp [Check, hTask, isGenericFailureResult]

/-- Witness for the amended C7 at a concrete unknown task id. -/
theorem c7_not_found_amended_witness :
    (Check wEnvNoTask wSt 42 "code").result =
      .ok { Success := false, Output := "", Expected := "", Error := taskNotFoundMsg,
            Hints := [], PointsAwarded := 0 } ∧
    isGenericFailureResult (Check wEnvNoTask wSt 42 "code").result = true :=
  c7_not_found_amended wEnvNoTask wSt 42 "code" (by decide)

/-- C10: a `Check` call that ends at the load stage (task not found) or at
the mode gate (manual task) creates no submission record and performs no
ledger write: the ledger state is returned unchanged and `UpdateSubmission`
is never invoked. -/
theorem c10_no_ledger_write_on_early_return
    (env : Env) (st : LedgerState) (taskID : Int) (code : String) :
    (env.getTask taskID = .ok none →
      (Check env st taskID code).ledger = st ∧ (Check env st taskID code).updateCalls = []) ∧
    (∀ task : Task, env.getTask taskID = .ok (some task) → goTrimSpace task.Mode = "manual" →
      (Check env st taskID code).ledger = st ∧ (Check env st taskID code).updateCalls = []) := by
  constructor
  · intro h
    constructor <;> simp [Check, h]
  · intro task h hm
    constructor <;> simp [Check, h, hm]

/-- Witness for C10: both the not-found and the manual early returns at
concrete inputs. -/
theorem c10_no_ledger_write_on_early_return_witness :
    ((Check wEnvNoTask wSt 1 "c").ledger = wSt ∧ (Check wEnvNoTask wSt 1 "c").updateCalls = []) ∧
    ((Check (wEnvOf wTaskManual) wSt 1 "c").ledger = wSt ∧
      (Check (wEnvOf wTaskManual) wSt 1 "c").updateCalls = []) :=
  ⟨(c10_no_ledger_write_on_early_return wEnvNoTask wSt 1 "c").1 (by decide),
   (c10_no_ledger_write_on_early_return (wEnvOf wTaskManual) wSt 1 "c").2 wTaskManual
     (by decide) (by decide)⟩

/-- C5: when some non-empty trimmed entry of `Task.RequiredPatterns` (split
on `|`) does not occur as a literal substring of the submitted code, the
pipeline stops at the pattern stage: `Success = false`, the single hint
lists every missing pattern verbatim, the submission is marked `error`, and
the Runner receives zero `Run` and zero `Check` calls. -/
theorem c5_pattern_short_circuit
    (env : Env) (st : LedgerState) (taskID : Int) (code : String) (task : Task)
    (hTask : env.getTask taskID = .ok (some task))
    (hMode : (goTrimSpace task.Mode == "manual") = false)
    (hCreate : env.createSubmissionErr = none)
    (hMiss : ∃ p ∈ (goSplit task.RequiredPatterns '|').map goTrimSpace,
      p ≠ "" ∧ goContains code p = false) :
    Check env st taskID code =
      { result := .ok { Success := false, Output := "", Expected := "",
                        Error := "В коде отсутствуют необходимые конструкции",
                        Hints := ["Используйте: " ++ goJoin ", " (missingPatterns task code)],
                        PointsAwarded := 0 },
        ledger := { st with submissions := st.submissions ++
          [{ TaskID := taskID, Code := code, Status := "error", Stdout := "", Stderr := "" }] },
        runnerRunCalls := 0, runnerCheckCalls := 0,
        updateCalls := [{ TaskID := taskID, Code := code, Status := "error",
                          Stdout := "", Stderr := "" }] } ∧
    (∀ p ∈ missingPatterns task code,
      goContains ("Используйте: " ++ goJoin ", " (missingPatterns task code)) p = true) ∧
    (∀ p ∈ (goSplit task.RequiredPatterns '|').map goTrimSpace,
      p ≠ "" → goContains code p = false → p ∈ missingPatterns task code) := by
  obtain ⟨p, hp, hpne, hpnc⟩ := hMiss
  have hpm : p ∈ missingPatterns task code :=
    List.mem_filter.mpr ⟨hp, by simp [hpne, hpnc]⟩
  have hmne : missingPatterns task code ≠ [] := List.ne_nil_of_mem hpm
  have hreq : (task.RequiredPatterns != "") = true := by
    rw [bne_iff_ne]
    intro h0
    rw [h0] at hp
    have hsp : (goSplit "" '|').map goTrimSpace = [""] := by decide
    rw [hsp] at hp
    simp at hp
    exact hpne hp
  have hmb : ((missingPatterns task code) != (List.nil : List String)) = true := by
    rw [bne_iff_ne]; exact hmne
  refine ⟨?_, ?_, ?_⟩
  · simp [Check, hTask, hMode, hCreate, hreq, hmb, createSubmission, updateSubmission,
      pendingSub, set_append_length]
  · intro q hq
    exact goContains_goJoin "Используйте: " ", " hq
  · intro q hq hqne hqnc
    exact List.mem_filter.mpr ⟨hq, by simp [hqne, hqnc]⟩

/-- Witness for C5: the task requires `for` and `fmt.Println`, and the code
`x` contains neither. -/
theorem c5_pattern_short_circuit_witness :
    Check (wEnvOf wTaskPat) wSt 1 "x" =
      { result := .ok { Success := false, Output := "", Expected := "",
                        Error := "В коде отсутствуют необходимые конструкции",
                        Hints := ["Используйте: " ++ goJoin ", " (missingPatterns wTaskPat "x")],
                        PointsAwarded := 0 },
        ledger := { wSt with submissions := wSt.submissions ++
          [{ TaskID := 1, Code := "x", Status := "error", Stdout := "", Stderr := "" }] },
        runnerRunCalls := 0, runnerCheckCalls := 0,
        updateCalls := [{ TaskID := 1, Code := "x", Status := "error",
                          Stdout := "", Stderr := "" }] } ∧
    (∀ p ∈ missingPatterns wTaskPat "x",
      goContains ("Используйте: " ++ goJoin ", " (missingPatterns wTaskPat "x")) p = true) ∧
    (∀ p ∈ (goSplit wTaskPat.RequiredPatterns '|').map goTrimSpace,
      p ≠ "" → goContains "x" p = false → p ∈ missingPatterns wTaskPat "x") :=
  c5_pattern_short_circuit (wEnvOf wTaskPat) wSt 1 "x" wTaskPat (by decide) (by decide)
    (by decide) ⟨"for", by decide, by decide, by decide⟩

/-- C6: at the execute stage the two Runner outcome classes are handled
disjointly — an infra failure (a Go error from `Runner.Run`) propagates to
the caller as an operation error with no structured `CheckResult`, after the
submission is marked `error` with the infra message in `Stderr`; a program
failure (`RunResult` with `Success = false`) yields a normal `CheckResult`
with `Success = false` carrying the program's stdout and the failure
message, the submission marked `error` with stderr captured, and the
pipeline stops (no test stage, no scoring). -/
theorem c6_execute_stage_dichotomy
    (env : Env) (st : LedgerState) (taskID : Int) (code : String) (task : Task)
    (hTask : env.getTask taskID = .ok (some task))
    (hMode : (goTrimSpace task.Mode == "manual") = false)
    (hCreate : env.createSubmissionErr = none)
    (hPat : missingPatterns task code = []) :
    (∀ e : String, env.runner.run code = .error e →
      Check env st taskID code =
        { result := .error ("run code: " ++ e),
          ledger := { st with submissions := st.submissions ++
            [{ TaskID := taskID, Code := code, Status := "error", Stdout := "", Stderr := e }] },
          runnerRunCalls := 1, runnerCheckCalls := 0,
          updateCalls := [{ TaskID := taskID, Code := code, Status := "error",
                            Stdout := "", Stderr := e }] }) ∧
    (∀ rr : RunResult, env.runner.run code = .ok rr → rr.Success = false →
      Check env st taskID code =
        { result := .ok { Success := false, Output := rr.Stdout, Expected := "",
                          Error := rr.Error, Hints := [], PointsAwarded := 0 },
          ledger := { st with submissions := st.submissions ++
            [{ TaskID := taskID, Code := code, Status := "error", Stdout := "",
               Stderr := rr.Error }] },
          runnerRunCalls := 1, runnerCheckCalls := 0,
          updateCalls := [{ TaskID := taskID, Code := code, Status := "error", Stdout := "",
                            Stderr := rr.Error }] }) := by
  constructor
  · intro e hRun
    simp [Check, hTask, hMode, hCreate, hPat, hRun, createSubmission, updateSubmission,
      pendingSub, set_append_length]
  · intro rr hRun hRS
    simp [Check, hTask, hMode, hCreate, hPat, hRun, hRS, createSubmission, updateSubmission,
      pendingSub, set_append_length]

/-- Witness for C6: an infra-failing runner and a program-failing runner at
concrete inputs. -/
theorem c6_execute_stage_dichotomy_witness :
    Check wEnvInfra wSt 1 "c" =
      { result := .error ("run code: " ++ "sandbox unavailable"),
        ledger := { wSt with submissions := wSt.submissions ++
          [{ TaskID := 1, Code := "c", Status := "error", Stdout := "",
             Stderr := "sandbox unavailable" }] },
        runnerRunCalls := 1, runnerCheckCalls := 0,
        updateCalls := [{ TaskID := 1, Code := "c", Status := "error", Stdout := "",
                          Stderr := "sandbox unavailable" }] } ∧
    Check wEnvProgFail wSt 1 "c" =
      { result := .ok { Success := false, Output := "partial", Expected := "",
                        Error := "compile error", Hints := [], PointsAwarded := 0 },
        ledger := { wSt with submissions := wSt.submissions ++
          [{ TaskID := 1, Code := "c", Status := "error", Stdout := "",
             Stderr := "compile error" }] },
        runnerRunCalls := 1, runnerCheckCalls := 0,
        updateCalls := [{ TaskID := 1, Code := "c", Status := "error", Stdout := "",
                          Stderr := "compile error" }] } :=
  ⟨(c6_execute_stage_dichotomy wEnvInfra wSt 1 "c" wTaskAuto (by decide) (by decide)
      (by decide) (by decide)).1 "sandbox unavailable" (by decide),
   (c6_execute_stage_dichotomy wEnvProgFail wSt 1 "c" wTaskAuto (by decide) (by decide)
      (by decide) (by decide)).2
     { Success := false, Stdout := "partial", Stderr := "", Error := "compile error" }
     (by decide) (by decide)⟩

/-- C3: every `Check` call that proceeds past the mode gate (a pending
submission row is created) invokes `UpdateSubmission` before returning, on
every return path — normal `CheckResult` returns and propagated error
returns alike — and every submission so passed carries a terminal status in
`success`/`error`; consequently the created row in the final ledger is never
left `pending`. -/
theorem c3_terminal_status_always
    (env : Env) (st : LedgerState) (taskID : Int) (code : String) (task : Task)
    (hTask : env.getTask taskID = .ok (some task))
    (hMode : (goTrimSpace task.Mode == "manual") = false)
    (hCreate : env.createSubmissionErr = none) :
    (Check env st taskID code).updateCalls ≠ [] ∧
    (∀ s ∈ (Check env st taskID code).updateCalls,
      s.Status = "success" ∨ s.Status = "error") ∧
    (Check env st taskID code).ledger.submissions =
      st.submissions ++ (Check env st taskID code).updateCalls := by
  simp only [Check, hTask, hMode, hCreate, createSubmission, Bool.false_eq_true, if_false]
  split
  · simp [updateSubmission, pendingSub, set_append_length]
  · split
    · simp [updateSubmission, pendingSub, set_append_length]
    · split
      · simp [updateSubmission, pendingSub, set_append_length]
      · split
        · simp [updateSubmission, pendingSub, set_append_length]
        · split
          · split
            · simp [updateSubmission, pendingSub, set_append_length]
            · split
              · simp [updateSubmission, pendingSub, set_append_length]
              · simp [scoringStage_updateCalls, scoringStage_submissions, pendingSub,
                  set_append_length]
          · simp [scoringStage_updateCalls, scoringStage_submissions, pendingSub,
              set_append_length]

/-- Witness for C3 at a concrete failing-pattern call. -/
theorem c3_terminal_status_always_witness :
    (Check (wEnvOf wTaskPat) wSt 1 "x").updateCalls ≠ [] ∧
    (∀ s ∈ (Check (wEnvOf wTaskPat) wSt 1 "x").updateCalls,
      s.Status = "success" ∨ s.Status = "error") ∧
    (Check (wEnvOf wTaskPat) wSt 1 "x").ledger.submissions =
      wSt.submissions ++ (Check (wEnvOf wTaskPat) wSt 1 "x").updateCalls :=
  c3_terminal_status_always (wEnvOf wTaskPat) wSt 1 "x" wTaskPat (by decide) (by decide)
    (by decide)

/-- C4: `compareOutput actual expected` returns true if and only if, after
normalizing both sides (every CRLF converted to LF, trailing spaces and tabs
stripped from each line), the texts are exactly equal, or else their blank
lines discarded leave equally many lines whose corresponding pairs are equal
after trimming; in particular the three example comparisons of the spec
evaluate as stated. -/
theorem c4_compareOutput_two_tier :
    (∀ a e : String, compareOutput a e = true ↔ SpecOutputsMatch a e) ∧
    compareOutput "a\nb\n" "a\n\nb" = true ∧
    compareOutput "a\nb" "a\nc" = false ∧
    compareOutput "x\r\n" "x\n" = true := by
  refine ⟨?_, by decide, by decide, by decide⟩
  intro a e
  unfold compareOutput SpecOutputsMatch specNonblankTrimmed nonEmptyLines
  simp only [specNormalize_eq_normalizeOutput]
  by_cases h : normalizeOutput a = normalizeOutput e
  · simp [h]
  · have hb : (normalizeOutput a == normalizeOutput e) = false := beq_eq_false_iff_ne.mpr h
    rw [or_iff_right h]
    simp only [hb, Bool.false_eq_true, if_false]
    rw [map_eq_map_iff_zip goTrimSpace]
    by_cases hl : ((goSplit (normalizeOutput a) '\n').filter
        (fun l => goTrimSpace l != "")).length =
        ((goSplit (normalizeOutput e) '\n').filter (fun l => goTrimSpace l != "")).length
    · have hbl : (((goSplit (normalizeOutput a) '\n').filter
          (fun l => goTrimSpace l != "")).length !=
          ((goSplit (normalizeOutput e) '\n').filter
            (fun l => goTrimSpace l != "")).length) = false := by
        rw [bne_eq_false_iff_eq]; exact_mod_cast hl
      simp [hbl, hl, List.all_eq_true]
    · have hbl : (((goSplit (normalizeOutput a) '\n').filter
          (fun l => goTrimSpace l != "")).length !=
          ((goSplit (normalizeOutput e) '\n').filter
            (fun l => goTrimSpace l != "")).length) = true := by
        rw [bne_iff_ne]; exact hl
      simp [hbl, hl]

/-- C1 counterexample: a task with a zero point value refutes the claim as
stated — both sequential passing calls report `Success = true` with
`PointsAwarded = 0` (the first call does carry `PointsAwarded =
Task.Points`, which is 0), so `PointsAwarded > 0` holds on neither of the
two calls, not on exactly one. -/
theorem c1_counterexample_zero_point_task :
    wTaskZero.Points = 0 ∧
    (Check (wEnvOf wTaskZero) wSt 1 "code").result =
      .ok { Success := true, Output := "", Expected := "", Error := "", Hints := [],
            PointsAwarded := 0 } ∧
    (Check (wEnvOf wTaskZero) (Check (wEnvOf wTaskZero) wSt 1 "code").ledger 1 "code").result =
      .ok { Success := true, Output := "", Expected := "", Error := "", Hints := [],
            PointsAwarded := 0 } ∧
    ¬((0 < resultPoints (Check (wEnvOf wTaskZero) wSt 1 "code") ∧
        ¬0 < resultPoints (Check (wEnvOf wTaskZero)
          (Check (wEnvOf wTaskZero) wSt 1 "code").ledger 1 "code")) ∨
      (¬0 < resultPoints (Check (wEnvOf wTaskZero) wSt 1 "code") ∧
        0 < resultPoints (Check (wEnvOf wTaskZero)
          (Check (wEnvOf wTaskZero) wSt 1 "code").ledger 1 "code"))) := by
  decide

/-- C1 (amended): for every task and code passing all verification stages
(with the ledger queries succeeding), the first successful `Check` call
carries `PointsAwarded = Task.Points` and every later successful call — in
particular the immediate second call — carries `PointsAwarded = 0` while
still reporting `Success = true`; provided `Task.Points > 0`, calling the
pipeline twice in sequence yields `PointsAwarded > 0` on exactly one of the
two calls. -/
theorem c1_amended_points_awarded_once
    (env : Env) (st : LedgerState) (taskID : Int) (code : String) (task : Task) (rr : RunResult)
    (hTask : env.getTask taskID = .ok (some task))
    (hMode : (goTrimSpace task.Mode == "manual") = false)
    (hCreate : env.createSubmissionErr = none)
    (hPat : missingPatterns task code = [])
    (hRun : env.runner.run code = .ok rr)
    (hRS : rr.Success = true)
    (hOut : task.ExpectedOutput = "" ∨
      compareOutput (goTrimSpace rr.Stdout) (goTrimSpace task.ExpectedOutput) = true)
    (hTests : task.TestsGo = "" ∨
      ∃ tr, env.runner.check code task.TestsGo = .ok tr ∧ tr.Success = true)
    (hIs : env.isSolvedErr = false)
    (hNot : isTaskSolvedSuccessfully st taskID = false) :
    (Check env st taskID code).result =
      .ok { Success := true, Output := rr.Stdout,
            Expected := (if task.ExpectedOutput != "" then goTrimSpace task.ExpectedOutput else ""),
            Error := "", Hints := [], PointsAwarded := task.Points } ∧
    (Check env (Check env st taskID code).ledger taskID code).result =
      .ok { Success := true, Output := rr.Stdout,
            Expected := (if task.ExpectedOutput != "" then goTrimSpace task.ExpectedOutput else ""),
            Error := "", Hints := [], PointsAwarded := 0 } ∧
    (∀ st' : LedgerState, isTaskSolvedSuccessfully st' taskID = true →
      (Check env st' taskID code).result =
        .ok { Success := true, Output := rr.Stdout,
              Expected := (if task.ExpectedOutput != "" then goTrimSpace task.ExpectedOutput else ""),
              Error := "", Hints := [], PointsAwarded := 0 }) ∧
    (0 < task.Points →
      0 < resultPoints (Check env st taskID code) ∧
      ¬0 < resultPoints (Check env (Check env st taskID code).ledger taskID code)) := by
  have hp1 : (Check env st taskID code).result =
      .ok { Success := true, Output := rr.Stdout,
            Expected := (if task.ExpectedOutput != "" then goTrimSpace task.ExpectedOutput else ""),
            Error := "", Hints := [], PointsAwarded := task.Points } := by
    rw [check_pass_result env st taskID code task rr hTask hMode hCreate hPat hRun hRS hOut hTests]
    simp [hIs, hNot]
  have hsolved1 : isTaskSolvedSuccessfully (Check env st taskID code).ledger taskID = true := by
    unfold isTaskSolvedSuccessfully
    rw [check_pass_submissions env st taskID code task rr hTask hMode hCreate hPat hRun hRS
      hOut hTests]
    simp [List.any_append]
  have hlater : ∀ st' : LedgerState, isTaskSolvedSuccessfully st' taskID = true →
      (Check env st' taskID code).result =
        .ok { Success := true, Output := rr.Stdout,
              Expected := (if task.ExpectedOutput != "" then goTrimSpace task.ExpectedOutput else ""),
              Error := "", Hints := [], PointsAwarded := 0 } := by
    intro st' hst'
    rw [check_pass_result env st' taskID code task rr hTask hMode hCreate hPat hRun hRS hOut hTests]
    simp [hIs, hst']
  have hp2 := hlater (Check env st taskID code).ledger hsolved1
  refine ⟨hp1, hp2, hlater, ?_⟩
  intro hpos
  have e1 : resultPoints (Check env st taskID code) = task.Points := by
    unfold resultPoints
    rw [hp1]
  have e2 : resultPoints (Check env (Check env st taskID code).ledger taskID code) = 0 := by
    unfold resultPoints
    rw [hp2]
  rw [e1, e2]
  exact ⟨hpos, by omega⟩

/-- Witness for the amended C1 at a concrete passing task worth 10 points:
the first call awards 10, the immediate second call awards 0, and exactly
the first of the two exceeds zero. -/
theorem c1_amended_points_awarded_once_witness :
    (Check (wEnvOf wTaskAuto) wSt 1 "code").result =
      .ok { Success := true, Output := "", Expected := "", Error := "", Hints := [],
            PointsAwarded := 10 } ∧
    (Check (wEnvOf wTaskAuto) (Check (wEnvOf wTaskAuto) wSt 1 "code").ledger 1 "code").result =
      .ok { Success := true, Output := "", Expected := "", Error := "", Hints := [],
            PointsAwarded := 0 } ∧
    (0 < resultPoints (Check (wEnvOf wTaskAuto) wSt 1 "code") ∧
      ¬0 < resultPoints (Check (wEnvOf wTaskAuto)
        (Check (wEnvOf wTaskAuto) wSt 1 "code").ledger 1 "code")) := by
  have h := c1_amended_points_awarded_once (wEnvOf wTaskAuto) wSt 1 "code" wTaskAuto
    { Success := true, Stdout := "", Stderr := "", Error := "" }
    (by decide) (by decide) (by decide) (by decide) (by decide) (by decide)
    (Or.inl (by decide)) (Or.inl (by decide)) (by decide) (by decide)
  exact ⟨h.1, h.2.1, h.2.2.2 (by decide)⟩

/-- C9: ledger errors at the scoring stage are swallowed: when the
already-solved query fails, `Check` treats the task as not yet solved and
still awards `Task.Points`; when the point-credit call fails, `Check` still
returns `Success = true` with `PointsAwarded = Task.Points` even though no
credit was durably recorded; in neither case is an error propagated to the
caller. -/
theorem c9_scoring_errors_swallowed
    (env : Env) (st : LedgerState) (taskID : Int) (code : String) (task : Task) (rr : RunResult)
    (hTask : env.getTask taskID = .ok (some task))
    (hMode : (goTrimSpace task.Mode == "manual") = false)
    (hCreate : env.createSubmissionErr = none)
    (hPat : missingPatterns task code = [])
    (hRun : env.runner.run code = .ok rr)
    (hRS : rr.Success = true)
    (hOut : task.ExpectedOutput = "" ∨
      compareOutput (goTrimSpace rr.Stdout) (goTrimSpace task.ExpectedOutput) = true)
    (hTests : task.TestsGo = "" ∨
      ∃ tr, env.runner.check code task.TestsGo = .ok tr ∧ tr.Success = true) :
    (env.isSolvedErr = true →
      (Check env st taskID code).result =
        .ok { Success := true, Output := rr.Stdout,
              Expected := (if task.ExpectedOutput != "" then goTrimSpace task.ExpectedOutput else ""),
              Error := "", Hints := [], PointsAwarded := task.Points }) ∧
    (env.isSolvedErr = false → env.setPracticeDoneErr = true →
      isTaskSolvedSuccessfully st taskID = false →
      (Check env st taskID code).result =
        .ok { Success := true, Output := rr.Stdout,
              Expected := (if task.ExpectedOutput != "" then goTrimSpace task.ExpectedOutput else ""),
              Error := "", Hints := [], PointsAwarded := task.Points } ∧
      (Check env st taskID code).ledger.practiceDone = st.practiceDone) := by
  constructor
  · intro hIs
    rw [check_pass_result env st taskID code task rr hTask hMode hCreate hPat hRun hRS hOut hTests]
    simp [hIs]
  · intro hIs hSet hNot
    constructor
    · rw [check_pass_result env st taskID code task rr hTask hMode hCreate hPat hRun hRS hOut
        hTests]
      simp [hIs, hNot]
    · rw [check_pass_practiceDone env st taskID code task rr hTask hMode hCreate hPat hRun hRS
        hOut hTests]
      simp [hIs, hNot, hSet]

/-- Witness for C9: with a failing already-solved query the call still
awards 10 points; with a failing point-credit call the result still reports
success with 10 points while the credit log stays empty. -/
theorem c9_scoring_errors_swallowed_witness :
    (Check wEnvIsErr wSt 1 "code").result =
      .ok { Success := true, Output := "", Expected := "", Error := "", Hints := [],
            PointsAwarded := 10 } ∧
    ((Check wEnvSetErr wSt 1 "code").result =
      .ok { Success := true, Output := "", Expected := "", Error := "", Hints := [],
            PointsAwarded := 10 } ∧
     (Check wEnvSetErr wSt 1 "code").ledger.practiceDone = wSt.practiceDone) := by
  constructor
  · exact (c9_scoring_errors_swallowed wEnvIsErr wSt 1 "code" wTaskAuto
      { Success := true, Stdout := "", Stderr := "", Error := "" }
      (by decide) (by decide) (by decide) (by decide) (by decide) (by decide)
      (Or.inl (by decide)) (Or.inl (by decide))).1 (by decide)
  · exact (c9_scoring_errors_swallowed wEnvSetErr wSt 1 "code" wTaskAuto
      { Success := true, Stdout := "", Stderr := "", Error := "" }
      (by decide) (by decide) (by decide) (by decide) (by decide) (by decide)
      (Or.inl (by decide)) (Or.inl (by decide))).2 (by decide) (by decide) (by decide)

/-- C2: the check-then-act scoring sequence does not behave as a single
atomic decision. Under the interleaving in which the two racing
first-time-correct calls (against a deterministically succeeding runner)
both run the already-solved query of line 161 before either persists its
success at line 171, BOTH outcomes carry `PointsAwarded = 10 > 0` — not
exactly one of the two, as the claim requires. -/
theorem c2_race_both_award :
    phaseAward (runSched 1 "codeA" "codeB" wTaskAuto
      [true, false, true, false, true, true, false, false]
      (ScorePhase.pCreate, ScorePhase.pCreate, wSt)).1 = 10 ∧
    phaseAward (runSched 1 "codeA" "codeB" wTaskAuto
      [true, false, true, false, true, true, false, false]
      (ScorePhase.pCreate, ScorePhase.pCreate, wSt)).2.1 = 10 ∧
    ¬((0 < phaseAward (runSched 1 "codeA" "codeB" wTaskAuto
          [true, false, true, false, true, true, false, false]
          (ScorePhase.pCreate, ScorePhase.pCreate, wSt)).1 ∧
        ¬0 < phaseAward (runSched 1 "codeA" "codeB" wTaskAuto
          [true, false, true, false, true, true, false, false]
          (ScorePhase.pCreate, ScorePhase.pCreate, wSt)).2.1) ∨
      (¬0 < phaseAward (runSched 1 "codeA" "codeB" wTaskAuto
          [true, false, true, false, true, true, false, false]
          (ScorePhase.pCreate, ScorePhase.pCreate, wSt)).1 ∧
        0 < phaseAward (runSched 1 "codeA" "codeB" wTaskAuto
          [true, false, true, false, true, true, false, false]
          (ScorePhase.pCreate, ScorePhase.pCreate, wSt)).2.1)) := by
  decide

end GoLearning
